import Mathlib

/-!
# Verification of the Cosmic Rocket League arena/physics core

Shallow embedding of `rocket-league-5.py` (the single source file of the
repository).  Conventions used throughout:

* Python `float` arithmetic is modelled over `ℚ` (exact rationals); float
  literals such as `0.35` denote the corresponding exact rational.  None of
  the claims settled here hinges on IEEE-754 rounding.
* Transcendental library calls (`math.sqrt`, `math.cos`, `math.sin`, and the
  fractional power `dist ** 1.2`) are modelled by an explicit `MathOracle`
  record of uninterpreted rational functions; every theorem quantifies over
  the oracle, so it holds in particular for the real interpretations.
  `math.pi` is the exact rational value of the IEEE-754 double `math.pi`.
* Python's seeded `random.Random(seed)` (stdlib, not part of the repository)
  is modelled by `PyRandom`, a deterministic pseudo-random stand-in with the
  documented interface guarantees (determinism given the seed, `randint a b`
  inclusive on both ends, `uniform a b` inside the closed interval).  The
  claims about generation depend only on those guarantees, never on the
  concrete Mersenne-Twister values.
* The process-global unseeded `random` module (used by `LevelMap.update` for
  lightning-node toggling) is modelled by threading an explicit list of unit
  draws (`List ℚ`, values in `[0,1]`) through the update.
* `pygame`, rendering, fonts, particles and the purely decorative
  `TerrainRenderer` are presentation-only and are omitted; the only pygame
  behaviour with gameplay effect, `Rect.collidepoint`, is embedded following
  pygame's documented semantics (left/top edges inclusive, right/bottom
  edges exclusive).  `TerrainRenderer` consumes draws from the seeded rng
  before `_generate` runs; since it is itself deterministic given the seed,
  generation is modelled as starting from a seed-determined rng state.
-/

set_option maxRecDepth 100000

namespace RocketLeague

/-! ## Configuration constants (source lines 23-32) -/

def SCREEN_W : ℚ := 1280
def SCREEN_H : ℚ := 720
def BALL_RADIUS : ℚ := 16
def CAR_W : ℚ := 36
def CAR_H : ℚ := 22
def GOAL_W : Int := 22
def GOAL_H : Int := 150
def BOOST_MAX : ℚ := 100
def BOOST_RECHARGE : ℚ := 8
def BOOST_COST : ℚ := 30
def BOOST_SPEED : ℚ := 520
def MAX_SPEED : ℚ := 380

/-- Value of `max(CAR_W, CAR_H) // 2` as in the source (`36 // 2 = 18`). -/
def carHalfMax : ℚ := 18

/-- Exact rational value of the IEEE-754 double `math.pi`. -/
def mathPi : ℚ := 884279719003555 / 281474976710656

/-- Uninterpreted models of the transcendental library functions used by the
source (`math.sqrt`, `math.cos`, `math.sin`, and `x ** 1.2`). -/
structure MathOracle where
  sqrt : ℚ → ℚ
  cos : ℚ → ℚ
  sin : ℚ → ℚ
  powOneTwo : ℚ → ℚ

/-- Concrete oracle instance used by closed witnesses/counterexamples; the
inputs at which it is evaluated are chosen so that it coincides with the
real functions there (e.g. `sqrt 0 = 0`). -/
def oracle0 : MathOracle where
  sqrt := fun q => if q = 0 then 0 else q
  cos := fun _ => 1
  sin := fun _ => 0
  powOneTwo := fun q => q

/-! ## Math helpers (source lines 114-119) -/

def v2_len (o : MathOracle) (vx vy : ℚ) : ℚ := o.sqrt (vx ^ 2 + vy ^ 2)

def lerp (a b t : ℚ) : ℚ := a + (b - a) * t

def clamp (v lo hi : ℚ) : ℚ := max lo (min hi v)

/-! ## Hazard / arena object records (source lines 169-183, 582-604) -/

structure CrystalShard where
  x : ℚ
  y : ℚ
  angle : ℚ
  size : ℚ
  spin : ℚ
deriving Repr, DecidableEq

structure GravityCorridor where
  x : ℚ
  y : ℚ
  width : ℚ
  height : ℚ
  strength : ℚ
  direction : ℚ
deriving Repr, DecidableEq

structure PulseRing where
  cx : ℚ
  cy : ℚ
  radius : ℚ
  max_radius : ℚ
  speed : ℚ
  color : Nat × Nat × Nat
deriving Repr, DecidableEq

structure LightningNode where
  x : ℚ
  y : ℚ
  timer : ℚ
  active : Bool
  radius : ℚ
deriving Repr, DecidableEq

structure GravityAnomaly where
  x : ℚ
  y : ℚ
  radius : ℚ
  strength : ℚ
  kind : String
deriving Repr, DecidableEq

structure BoostPad where
  x : ℚ
  y : ℚ
  radius : ℚ := 22
  active : Bool := true
  cooldown : ℚ := 0
deriving Repr, DecidableEq

structure MovingAsteroid where
  x : ℚ
  y : ℚ
  radius : ℚ
  vx : ℚ
  vy : ℚ
  angle : ℚ := 0
  spin : ℚ := 0
  color : Nat × Nat × Nat := (130, 110, 90)
deriving Repr, DecidableEq

/-! ## Level catalog (source lines 35-111); presentation-only fields
(background colours, star colours, subtitles, descriptions) are omitted. -/

structure LevelCfg where
  id : Nat
  accent : Nat × Nat × Nat
  accent2 : Nat × Nat × Nat
  anomaly_types : List String
  max_anomalies : Nat
  max_asteroids : Nat
  hazards : List String
deriving Repr, DecidableEq

def LEVELS : List LevelCfg :=
  [ { id := 0, accent := (180, 200, 255), accent2 := (100, 120, 200),
      anomaly_types := ["repulsor"], max_anomalies := 1, max_asteroids := 0,
      hazards := [] },
    { id := 1, accent := (0, 255, 200), accent2 := (200, 0, 255),
      anomaly_types := ["nebula", "repulsor"], max_anomalies := 3,
      max_asteroids := 0, hazards := ["crystal_shards"] },
    { id := 2, accent := (255, 140, 40), accent2 := (160, 80, 20),
      anomaly_types := ["repulsor"], max_anomalies := 2, max_asteroids := 5,
      hazards := ["spinning_rocks"] },
    { id := 3, accent := (255, 40, 80), accent2 := (180, 0, 80),
      anomaly_types := ["black_hole"], max_anomalies := 2, max_asteroids := 2,
      hazards := ["gravity_corridors"] },
    { id := 4, accent := (0, 240, 255), accent2 := (255, 240, 0),
      anomaly_types := ["repulsor", "nebula"], max_anomalies := 2,
      max_asteroids := 1, hazards := ["pulse_rings", "lightning_nodes"] } ]

def levelCfg (lid : Nat) : LevelCfg :=
  LEVELS.getD lid { id := 0, accent := (0, 0, 0), accent2 := (0, 0, 0),
                    anomaly_types := [], max_anomalies := 0,
                    max_asteroids := 0, hazards := [] }

/-! ## Seeded PRNG stand-in for `random.Random(seed)`.

Modelled from the Python stdlib contract (external to the repository):
a deterministic generator seeded once; `randint a b` uniform on the closed
integer interval `[a, b]`; `uniform a b` a value between `a` and `b`;
`choice xs` an element of `xs`.  A 64-bit LCG supplies the underlying
deterministic stream; the claims use only determinism and the range
guarantees, which this stand-in satisfies. -/

structure PyRandom where
  state : Nat
deriving Repr, DecidableEq

def PyRandom.next (r : PyRandom) : Nat × PyRandom :=
  let s := (6364136223846793005 * r.state + 1442695040888963407) % (2 ^ 64)
  (s / (2 ^ 16), ⟨s⟩)

/-- `rng.randint(a, b)`: inclusive on both endpoints. -/
def PyRandom.randint (r : PyRandom) (a b : Int) : Int × PyRandom :=
  let p := r.next
  (a + (p.1 % (b - a + 1).toNat : Nat), p.2)

/-- Unit draw in `[0, 1)`. -/
def PyRandom.unit (r : PyRandom) : ℚ × PyRandom :=
  let p := r.next
  ((p.1 % 1048576 : Nat) / 1048576, p.2)

/-- `rng.uniform(a, b)`: `a + (b - a) * u` with `u ∈ [0, 1)` (works for
either argument order, as in Python). -/
def PyRandom.uniform (r : PyRandom) (a b : ℚ) : ℚ × PyRandom :=
  let p := r.unit
  (a + (b - a) * p.1, p.2)

/-- `rng.choice(xs)` on a list of strings. -/
def PyRandom.choice (r : PyRandom) (xs : List String) : String × PyRandom :=
  let p := r.next
  (xs.getD (p.1 % xs.length) "", p.2)

/-- Generate `n` values by iterating a state-threading generator. -/
def genList {α : Type} (n : Nat) (f : PyRandom → α × PyRandom) :
    PyRandom → List α × PyRandom := fun r =>
  match n with
  | 0 => ([], r)
  | k + 1 =>
    let p := f r
    let rest := genList k f p.2
    (p.1 :: rest.1, rest.2)

/-! ## LevelMap (source lines 607-774) -/

structure LevelMap where
  level_id : Nat
  anomalies : List GravityAnomaly := []
  boost_pads : List BoostPad := []
  asteroids : List MovingAsteroid := []
  pulse_rings : List PulseRing := []
  lightning : List LightningNode := []
  crystal_shards : List CrystalShard := []
  gravity_corridors : List GravityCorridor := []
deriving Repr, DecidableEq

/-- One random boost-pad position (source line 632). -/
def genPad (r : PyRandom) : (ℚ × ℚ) × PyRandom :=
  let px := r.randint 120 (1280 - 120)
  let py := px.2.randint 90 (720 - 90)
  ((px.1, py.1), py.2)

/-- One gravity anomaly (source lines 639-645).  Note that for a nebula the
source first draws a repulsor-range strength and then overwrites it with a
second draw, consuming two `uniform` draws. -/
def genAnomaly (kinds : List String) (r : PyRandom) :
    GravityAnomaly × PyRandom :=
  let k := r.choice kinds
  let ax := k.2.randint 220 (1280 - 220)
  let ay := ax.2.randint 130 (720 - 130)
  let rr := ay.2.randint 55 115
  let s := if k.1 = "black_hole" then rr.2.uniform 100 220
           else rr.2.uniform (-50) (-110)
  let s2 := if k.1 = "nebula" then s.2.uniform 25 55 else s
  ({ x := ax.1, y := ay.1, radius := rr.1, strength := s2.1, kind := k.1 },
   s2.2)

/-- One moving asteroid (source lines 649-662). -/
def genAsteroid (lid : Nat) (r : PyRandom) : MovingAsteroid × PyRandom :=
  let spd : ℚ := if lid = 3 then 60 else 80
  let col : Nat × Nat × Nat :=
    if lid = 2 then (160, 100, 50)
    else if lid = 3 then (120, 20, 40) else (130, 110, 90)
  let ax := r.randint 200 (1280 - 200)
  let ay := ax.2.randint 90 (720 - 90)
  let ar := ay.2.randint 14 32
  let avx := ar.2.uniform (-spd) spd
  let avy := avx.2.uniform (-spd * 0.8) (spd * 0.8)
  let aang := avy.2.uniform 0 (mathPi * 2)
  let aspin := aang.2.uniform (-2.5) 2.5
  ({ x := ax.1, y := ay.1, radius := ar.1, vx := avx.1, vy := avy.1,
     angle := aang.1, spin := aspin.1, color := col }, aspin.2)

def genShard (r : PyRandom) : CrystalShard × PyRandom :=
  let sx := r.randint 100 (1280 - 100)
  let sy := sx.2.randint 80 (720 - 80)
  let sang := sy.2.uniform 0 (mathPi * 2)
  let ssz := sang.2.randint 18 45
  let sspin := ssz.2.uniform (-0.8) 0.8
  ({ x := sx.1, y := sy.1, angle := sang.1, size := ssz.1, spin := sspin.1 },
   sspin.2)

def genCorridor (r : PyRandom) : GravityCorridor × PyRandom :=
  let gx := r.randint 200 (1280 - 200)
  let gy := gx.2.randint 100 (720 - 100)
  let gw := gy.2.randint 40 80
  let gh := gw.2.randint 80 180
  let gs := gh.2.uniform 150 300
  let gd := gs.2.uniform 0 (mathPi * 2)
  ({ x := gx.1, y := gy.1, width := gw.1, height := gh.1, strength := gs.1,
     direction := gd.1 }, gd.2)

def genRing (accent : Nat × Nat × Nat) (r : PyRandom) :
    PulseRing × PyRandom :=
  let cx := r.randint 200 (1280 - 200)
  let cy := cx.2.randint 100 (720 - 100)
  let mr := cy.2.randint 80 160
  let sp := mr.2.uniform 80 160
  ({ cx := cx.1, cy := cy.1, radius := 10, max_radius := mr.1, speed := sp.1,
     color := accent }, sp.2)

def genLightning (r : PyRandom) : LightningNode × PyRandom :=
  let lx := r.randint 150 (1280 - 150)
  let ly := lx.2.randint 80 (720 - 80)
  let lt := ly.2.uniform 1.5 4.0
  let lr := lt.2.randint 50 90
  ({ x := lx.1, y := ly.1, timer := lt.1, active := false, radius := lr.1 },
   lr.2)

/-- `LevelMap.__init__` + `_generate` (source lines 608-700): deterministic
given `level_id` via the seed `level_id * 137 + 42`; all draws come from the
per-instance seeded rng, never from the process-global `random` module. -/
def LevelMap.init (lid : Nat) : LevelMap :=
  let cfg := levelCfg lid
  let rng : PyRandom := ⟨lid * 137 + 42⟩
  let nPads := rng.randint 3 6
  let extraPads := genList nPads.1.toNat genPad nPads.2
  let pads : List BoostPad :=
    ((((1280 : ℚ) / 2, (720 : ℚ) / 2) :: extraPads.1).map
      fun p => { x := p.1, y := p.2 })
  let anomalies := genList cfg.max_anomalies (genAnomaly cfg.anomaly_types)
    extraPads.2
  let asteroids := genList cfg.max_asteroids (genAsteroid lid) anomalies.2
  let shards :=
    if "crystal_shards" ∈ cfg.hazards then genList 8 genShard asteroids.2
    else ([], asteroids.2)
  let corridors :=
    if "gravity_corridors" ∈ cfg.hazards then genList 3 genCorridor shards.2
    else ([], shards.2)
  let rings :=
    if "pulse_rings" ∈ cfg.hazards then genList 3 (genRing cfg.accent)
      corridors.2
    else ([], corridors.2)
  let lightning :=
    if "lightning_nodes" ∈ cfg.hazards then genList 5 genLightning rings.2
    else ([], rings.2)
  { level_id := lid, anomalies := anomalies.1, boost_pads := pads,
    asteroids := asteroids.1, pulse_rings := rings.1,
    lightning := lightning.1, crystal_shards := shards.1,
    gravity_corridors := corridors.1 }

/-- Boost-pad cooldown tick (source lines 704-708). -/
def padCooldownStep (dt : ℚ) (pad : BoostPad) : BoostPad :=
  if !pad.active then
    let cd := pad.cooldown - dt
    if cd ≤ 0 then { pad with cooldown := cd, active := true }
    else { pad with cooldown := cd }
  else pad

/-- Asteroid advance + bounds handling (source lines 711-716): the position
is advected and the velocity component is negated when the new position lies
beyond the wall; the position itself is NOT clamped. -/
def asteroidStep (dt : ℚ) (ast : MovingAsteroid) : MovingAsteroid :=
  let x := ast.x + ast.vx * dt
  let y := ast.y + ast.vy * dt
  let angle := ast.angle + ast.spin * dt
  let vx := if x < ast.radius ∨ x > SCREEN_W - ast.radius then -ast.vx
            else ast.vx
  let vy := if y < ast.radius ∨ y > SCREEN_H - ast.radius then -ast.vy
            else ast.vy
  { ast with x := x, y := y, angle := angle, vx := vx, vy := vy }

def shardStep (dt : ℚ) (cs : CrystalShard) : CrystalShard :=
  { cs with angle := cs.angle + cs.spin * dt }

def ringStep (dt : ℚ) (pr : PulseRing) : PulseRing :=
  let r := pr.radius + pr.speed * dt
  if r > pr.max_radius then { pr with radius := 10 } else { pr with radius := r }

/-- Lightning-node tick (source lines 729-733).  On a toggle the new timer is
drawn from the PROCESS-GLOBAL unseeded `random` module, modelled by
consuming the head of the ambient unit-draw list. -/
def lightningStep (dt : ℚ) (st : List LightningNode × List ℚ)
    (ln : LightningNode) : List LightningNode × List ℚ :=
  let t := ln.timer - dt
  if t ≤ 0 then
    let act := !ln.active
    let u := st.2.headD 0
    let timer := if act then 0.4 + (2.5 - 0.4) * u else 1.0 + (4.0 - 1.0) * u
    (st.1 ++ [{ ln with timer := timer, active := act }], st.2.tail)
  else (st.1 ++ [{ ln with timer := t }], st.2)

/-- `LevelMap.update` (source lines 702-733); returns the updated map and
the remaining ambient draws. -/
def LevelMap.update (lm : LevelMap) (dt : ℚ) (amb : List ℚ) :
    LevelMap × List ℚ :=
  let pads := lm.boost_pads.map (padCooldownStep dt)
  let asts := lm.asteroids.map (asteroidStep dt)
  let shards := lm.crystal_shards.map (shardStep dt)
  let rings := lm.pulse_rings.map (ringStep dt)
  let lns := lm.lightning.foldl (lightningStep dt) ([], amb)
  ({ lm with boost_pads := pads, asteroids := asts, crystal_shards := shards,
             pulse_rings := rings, lightning := lns.1 }, lns.2)

/-- Body of the anomaly loop of `apply_gravity` (source lines 736-747):
nebula anomalies damp the velocity inside `radius`; other kinds add an
inverse-power force inside `3 * radius` (distance floored at 1). -/
def anomalyAccel (o : MathOracle) (ox oy mass dt : ℚ) (v : ℚ × ℚ)
    (a : GravityAnomaly) : ℚ × ℚ :=
  let dx := a.x - ox
  let dy := a.y - oy
  let dist := max 1 (o.sqrt (dx ^ 2 + dy ^ 2))
  if a.kind = "nebula" then
    if dist < a.radius then
      (v.1 * (1 - 0.35 * dt), v.2 * (1 - 0.35 * dt))
    else v
  else
    if dist < a.radius * 3 then
      let force := a.strength / o.powOneTwo dist * dt / mass
      (v.1 + dx / dist * force, v.2 + dy / dist * force)
    else v

/-- Body of the gravity-corridor loop of `apply_gravity` (source lines
750-757): a constant directional push inside the corridor's axis-aligned
half-extents. -/
def corridorAccel (o : MathOracle) (ox oy mass dt : ℚ) (v : ℚ × ℚ)
    (gc : GravityCorridor) : ℚ × ℚ :=
  let dx := ox - gc.x
  let dy := oy - gc.y
  if |dx| < gc.width / 2 ∧ |dy| < gc.height / 2 then
    (v.1 + o.cos gc.direction * gc.strength * dt / mass,
     v.2 + o.sin gc.direction * gc.strength * dt / mass)
  else v

/-- `LevelMap.apply_gravity` (source lines 735-759). -/
def LevelMap.apply_gravity (o : MathOracle) (lm : LevelMap)
    (ox oy vx vy mass dt : ℚ) : ℚ × ℚ :=
  lm.gravity_corridors.foldl (corridorAccel o ox oy mass dt)
    (lm.anomalies.foldl (anomalyAccel o ox oy mass dt) (vx, vy))

/-- `LevelMap.check_hazard_hit` (source lines 761-774). -/
def LevelMap.check_hazard_hit (o : MathOracle) (lm : LevelMap)
    (ox oy radius : ℚ) : Bool :=
  lm.lightning.any (fun ln =>
    ln.active && decide
      (o.sqrt ((ox - ln.x) ^ 2 + (oy - ln.y) ^ 2) < ln.radius + radius)) ||
  lm.pulse_rings.any (fun pr =>
    decide (|o.sqrt ((ox - pr.cx) ^ 2 + (oy - pr.cy) ^ 2) - pr.radius| <
      10 + radius))

/-! ## Car (source lines 931-999).  Presentation-only fields (colors) are
omitted; the gameplay-irrelevant but stateful `trail` and `invincible`
fields are kept for fidelity. -/

structure Car where
  x : ℚ
  y : ℚ
  vx : ℚ := 0
  vy : ℚ := 0
  angle : ℚ := 0
  is_player : Bool := true
  boost : ℚ := BOOST_MAX
  score : Nat := 0
  boosting : Bool := false
  trail : List (ℚ × ℚ) := []
  invincible : ℚ := 0
deriving Repr, DecidableEq

/-- `Car.apply_input` (source lines 950-974). -/
def Car.apply_input (o : MathOracle) (c : Car)
    (left right forward back boost_key : Bool) (dt : ℚ) : Car :=
  let rot_spd := 220 * dt
  let angle1 := if left then c.angle - rot_spd * (mathPi / 180) else c.angle
  let angle := if right then angle1 + rot_spd * (mathPi / 180) else angle1
  let accel : ℚ := 400
  let v1 : ℚ × ℚ :=
    if forward then
      (c.vx + o.cos angle * accel * dt, c.vy + o.sin angle * accel * dt)
    else (c.vx, c.vy)
  let v2 : ℚ × ℚ :=
    if back then
      (v1.1 - o.cos angle * accel * 0.5 * dt,
       v1.2 - o.sin angle * accel * 0.5 * dt)
    else v1
  let boosting := boost_key && decide (c.boost > 5) && forward
  let v3 : ℚ × ℚ :=
    if boosting then
      (v2.1 + o.cos angle * BOOST_SPEED * dt,
       v2.2 + o.sin angle * BOOST_SPEED * dt)
    else v2
  let boost :=
    if boosting then c.boost - BOOST_COST * dt
    else min BOOST_MAX (c.boost + BOOST_RECHARGE * dt)
  let spd := v2_len o v3.1 v3.2
  let max_s := if boosting then BOOST_SPEED else MAX_SPEED
  let v4 : ℚ × ℚ :=
    if spd > max_s then (v3.1 * (max_s / spd), v3.2 * (max_s / spd)) else v3
  let drag : ℚ := if !forward && !back then 0.992 else 0.999
  { c with angle := angle, vx := v4.1 * drag, vy := v4.2 * drag,
           boost := boost, boosting := boosting }

/-- Bounds clamping of `Car.update` (source lines 981-985): `pad = 30`,
restitution factor `0.6`. -/
def carClampBounds (c : Car) : Car :=
  let c1 := if c.x < 30 then { c with x := 30, vx := |c.vx| * 0.6 } else c
  let c2 := if c1.x > SCREEN_W - 30 then
      { c1 with x := SCREEN_W - 30, vx := -|c1.vx| * 0.6 } else c1
  let c3 := if c2.y < 30 then { c2 with y := 30, vy := |c2.vy| * 0.6 } else c2
  if c3.y > SCREEN_H - 30 then
    { c3 with y := SCREEN_H - 30, vy := -|c3.vy| * 0.6 }
  else c3

/-- Everything in `Car.update` before the boost-pad loop (source lines
977-993): gravity, integration, trail, bounds clamping, asteroid push-apart
and the invincibility countdown. -/
def Car.prePad (o : MathOracle) (c : Car) (dt : ℚ) (lm : LevelMap) : Car :=
  let v := lm.apply_gravity o c.x c.y c.vx c.vy 1 dt
  let x := c.x + v.1 * dt
  let y := c.y + v.2 * dt
  let tr0 := c.trail ++ [(x, y)]
  let tr := if tr0.length > 22 then tr0.tail else tr0
  let c1 := carClampBounds
    { c with x := x, y := y, vx := v.1, vy := v.2, trail := tr }
  let va := lm.asteroids.foldl (fun (v : ℚ × ℚ) ast =>
    let dx := c1.x - ast.x
    let dy := c1.y - ast.y
    let d := o.sqrt (dx ^ 2 + dy ^ 2)
    let min_d := ast.radius + carHalfMax
    if d < min_d ∧ d > 0.1 then
      (v.1 + dx / d * 220, v.2 + dy / d * 220)
    else v) (c1.vx, c1.vy)
  let c2 : Car := { c1 with vx := va.1, vy := va.2 }
  if c2.invincible > 0 then { c2 with invincible := c2.invincible - dt }
  else c2

/-- Body of the boost-pad loop of `Car.update` (source lines 994-999): an
active pad within `pad.radius + 16` of the car adds 45 boost (capped at
`BOOST_MAX`) and is deactivated with a 5-second cooldown. -/
def padPickup (o : MathOracle) (x y : ℚ) (st : ℚ × List BoostPad)
    (bp : BoostPad) : ℚ × List BoostPad :=
  if bp.active then
    let dx := x - bp.x
    let dy := y - bp.y
    if o.sqrt (dx ^ 2 + dy ^ 2) < bp.radius + 16 then
      (min BOOST_MAX (st.1 + 45),
       st.2 ++ [{ bp with active := false, cooldown := 5 }])
    else (st.1, st.2 ++ [bp])
  else (st.1, st.2 ++ [bp])

/-- The guard of the boost-pad loop body (source lines 995-997): the pad is
active and its centre is within `pad.radius + 16` of the car position. -/
def padInRange (o : MathOracle) (x y : ℚ) (p : BoostPad) : Bool :=
  p.active && decide (o.sqrt ((x - p.x) ^ 2 + (y - p.y) ^ 2) < p.radius + 16)

/-- `Car.update` (source lines 976-999); returns the updated car and the
level map with its (possibly deactivated) boost pads. -/
def Car.update (o : MathOracle) (c : Car) (dt : ℚ) (lm : LevelMap) :
    Car × LevelMap :=
  let c1 := c.prePad o dt lm
  let r := lm.boost_pads.foldl (padPickup o c1.x c1.y) (c1.boost, [])
  ({ c1 with boost := r.1 }, { lm with boost_pads := r.2 })

/-! ## Ball (source lines 1028-1073) -/

structure Ball where
  x : ℚ
  y : ℚ
  vx : ℚ
  vy : ℚ
  spin : ℚ := 0
  trail : List (ℚ × ℚ) := []
deriving Repr, DecidableEq

/-- Bounds clamping of `Ball.update` (source lines 1044-1047): pad
`BALL_RADIUS`, restitution factor `0.9`. -/
def ballClampBounds (b : Ball) : Ball :=
  let b1 := if b.x < BALL_RADIUS then
      { b with x := BALL_RADIUS, vx := |b.vx| * 0.9 } else b
  let b2 := if b1.x > SCREEN_W - BALL_RADIUS then
      { b1 with x := SCREEN_W - BALL_RADIUS, vx := -|b1.vx| * 0.9 } else b1
  let b3 := if b2.y < BALL_RADIUS then
      { b2 with y := BALL_RADIUS, vy := |b2.vy| * 0.9 } else b2
  if b3.y > SCREEN_H - BALL_RADIUS then
    { b3 with y := SCREEN_H - BALL_RADIUS, vy := -|b3.vy| * 0.9 }
  else b3

/-- `Ball.update` (source lines 1038-1058). -/
def Ball.update (o : MathOracle) (b : Ball) (dt : ℚ) (lm : LevelMap) :
    Ball :=
  let v := lm.apply_gravity o b.x b.y b.vx b.vy 0.7 dt
  let x := b.x + v.1 * dt
  let y := b.y + v.2 * dt
  let spin := b.spin + 0.05
  let tr0 := b.trail ++ [(x, y)]
  let tr := if tr0.length > 16 then tr0.tail else tr0
  let b1 := ballClampBounds
    { b with x := x, y := y, vx := v.1, vy := v.2, spin := spin, trail := tr }
  let b2 := lm.asteroids.foldl (fun bb ast =>
    let dx := bb.x - ast.x
    let dy := bb.y - ast.y
    let d := o.sqrt (dx ^ 2 + dy ^ 2)
    if d < BALL_RADIUS + ast.radius ∧ d > 0.1 then
      let nx := dx / d
      let ny := dy / d
      let spd := v2_len o bb.vx bb.vy
      { bb with vx := nx * max spd 160, vy := ny * max spd 160,
                x := ast.x + nx * (BALL_RADIUS + ast.radius + 2),
                y := ast.y + ny * (BALL_RADIUS + ast.radius + 2) }
    else bb) b1
  let spd := v2_len o b2.vx b2.vy
  if spd > 750 then
    { b2 with vx := b2.vx / spd * 750, vy := b2.vy / spd * 750 }
  else b2

/-- `Ball.car_hit` (source lines 1060-1073); returns the updated ball and
car together with the hit flag.  The particle emission is presentation-only
and omitted. -/
def Ball.car_hit (o : MathOracle) (b : Ball) (c : Car) :
    Ball × Car × Bool :=
  let dx := b.x - c.x
  let dy := b.y - c.y
  let d := o.sqrt (dx ^ 2 + dy ^ 2)
  let min_d : ℚ := BALL_RADIUS + carHalfMax
  if d < min_d ∧ d > 0.1 then
    let nx := dx / d
    let ny := dy / d
    let car_spd := v2_len o c.vx c.vy
    let impact := max (car_spd * 0.8) 260 + (if c.boosting then 200 else 0)
    ({ b with vx := nx * impact + c.vx * 0.3, vy := ny * impact + c.vy * 0.3,
              x := c.x + nx * (min_d + 2), y := c.y + ny * (min_d + 2) },
     { c with vx := c.vx - nx * 80, vy := c.vy - ny * 80 },
     true)
  else (b, c, false)

/-! ## AI brain (source lines 1096-1121); only the adaptation-relevant
state is embedded (the q-weight table, think timers and control derivation
use ambient randomness and are not needed by any claim). -/

structure AIBrain where
  goals_conceded : Int := 0
  goals_scored : Int := 0
  reaction_delay : ℚ
  aim_noise : ℚ
deriving Repr, DecidableEq

/-- `AIBrain.__init__` fields for a given difficulty value `0..3`
(source lines 1111-1112). -/
def AIBrain.init (diffVal : Nat) : AIBrain :=
  { reaction_delay := [0.5, 0.25, 0.1, 0.0].getD diffVal 0,
    aim_noise := [30.0, 15.0, 6.0, 1.0].getD diffVal 0 }

/-- `AIBrain.adapt` (source lines 1114-1121). -/
def AIBrain.adapt (b : AIBrain) : AIBrain :=
  let diff := b.goals_scored - b.goals_conceded
  if diff < -2 then
    { b with aim_noise := max 1.0 (b.aim_noise - 3.0),
             reaction_delay := max 0.0 (b.reaction_delay - 0.05) }
  else if diff > 2 then
    { b with aim_noise := min 40.0 (b.aim_noise + 2.0),
             reaction_delay := min 0.6 (b.reaction_delay + 0.03) }
  else b

/-! ## Goal zones (source lines 1177-1186) -/

/-- Python `int()` applied to a rational: truncation toward zero. -/
def pyInt (q : ℚ) : Int := if 0 ≤ q then ⌊q⌋ else -⌊-q⌋

structure GoalZone where
  side : String
  x : Int
  y : Int
deriving Repr, DecidableEq

/-- `GoalZone.__init__` (source lines 1178-1182). -/
def GoalZone.init (side : String) : GoalZone :=
  { side := side,
    x := if side = "left" then 0 else 1280 - GOAL_W,
    y := (720 - GOAL_H) / 2 }

/-- `pygame.Rect(x, y, w, h).collidepoint(px, py)`, following pygame's
documented semantics: a point on the left or top edge is inside, a point on
the right or bottom edge is not. -/
def collidepoint (x y w h px py : Int) : Bool :=
  decide (x ≤ px ∧ px < x + w ∧ y ≤ py ∧ py < y + h)

/-- `GoalZone.check_goal` (source lines 1185-1186): the ball's coordinates
are truncated by `int()` and tested against the `GOAL_W × GOAL_H` rect. -/
def GoalZone.check_goal (z : GoalZone) (bx bY : ℚ) : Bool :=
  collidepoint z.x z.y GOAL_W GOAL_H (pyInt bx) (pyInt bY)

def goal_l : GoalZone := GoalZone.init "left"
def goal_r : GoalZone := GoalZone.init "right"

/-! ## Match state (goal handling of `Game.update`, source lines
1527-1536).  Presentation fields (flash colour/timer, advisory message) and
the particle burst are omitted; `_goal_event` additionally moves the match
phase to `goal_flash`, which is kept. -/

structure MatchState where
  phase : String := "playing"
  combo : Nat := 1
  player_score : Nat := 0
  ai_score : Nat := 0
  brain : AIBrain := AIBrain.init 1
deriving Repr, DecidableEq

/-- The goal-check block of `Game.update` (source lines 1527-1536) for a
ball at `(bx, bY)`: left goal scores for the AI (combo reset to 1), right
goal scores for the player (combo incremented, capped at 8); in both cases
the AI adapts and the phase becomes `goal_flash`. -/
def goalCheckStep (g : MatchState) (bx bY : ℚ) : MatchState :=
  if goal_l.check_goal bx bY then
    { g with ai_score := g.ai_score + 1, combo := 1,
             brain := AIBrain.adapt
               { g.brain with goals_scored := g.brain.goals_scored + 1 },
             phase := "goal_flash" }
  else if goal_r.check_goal bx bY then
    { g with player_score := g.player_score + 1, combo := min (g.combo + 1) 8,
             brain := AIBrain.adapt
               { g.brain with goals_conceded := g.brain.goals_conceded + 1 },
             phase := "goal_flash" }
  else g

/-- A match run: the initial state of `_init_game` (combo = 1) followed by
any sequence of goal-check ticks with arbitrary ball positions. -/
def matchRun (balls : List (ℚ × ℚ)) : MatchState :=
  balls.foldl (fun g p => goalCheckStep g p.1 p.2) {}

/-- The `dt` clamp of `Game.run` (source lines 1643-1644): every tick's
`dt` is nonnegative and at most `0.05`. -/
def runDt (raw : ℚ) : ℚ := min raw 0.05

/-- Evolution of the arena layout under a sequence of per-tick `dt` values,
threading the ambient (process-global) unit draws. -/
def mapEvolve : LevelMap → List ℚ → List ℚ → LevelMap
  | m, [], _ => m
  | m, dt :: dts, s => mapEvolve (m.update dt s).1 dts (m.update dt s).2

/-! ## Concrete instances used by closed counterexamples/witnesses -/

/-- A car sitting exactly at the centre of the single boost pad of
`c1map`, with an empty boost meter. -/
def c1car : Car := { x := 640, y := 360, boost := 0 }

/-- A minimal arena with one active boost pad at `(640, 360)`. -/
def c1map : LevelMap := { level_id := 0, boost_pads := [{ x := 640, y := 360 }] }

/-- An asteroid just inside the right wall, moving right fast enough to
cross it in one tick. -/
def c4ast : MovingAsteroid := { x := 1265, y := 360, radius := 14, vx := 80, vy := 0 }

/-- An arena holding only `c4ast`. -/
def c4map : LevelMap := { level_id := 2, asteroids := [c4ast] }

/-- The asteroid of `c4map` after one `LevelMap.update` tick at `dt = 1/20`. -/
def c4astAfter : MovingAsteroid := (c4map.update (1/20) []).1.asteroids.headD c4ast

/-- An arena holding a single nebula anomaly centred at the origin. -/
def c5map : LevelMap :=
  { level_id := 1,
    anomalies := [{ x := 0, y := 0, radius := 50, strength := 30, kind := "nebula" }] }

/-- The `dt` sequence of the C2 counterexample: a single update tick long
enough (4 s) that every lightning timer, drawn from `uniform(1.5, 4.0)` at
generation, expires and is redrawn from the ambient stream. -/
def c2dts : List ℚ := [4]

/-! # Theorems -/

/-! ## Helper lemmas -/

theorem carClampBounds_boost (c : Car) : (carClampBounds c).boost = c.boost := by
  simp only [carClampBounds]
  split_ifs <;> rfl

theorem Car.prePad_boost (o : MathOracle) (c : Car) (dt : ℚ) (lm : LevelMap) :
    (c.prePad o dt lm).boost = c.boost := by
  simp only [Car.prePad]
  split_ifs <;> simp [carClampBounds_boost]

theorem apply_input_boosting (o : MathOracle) (c : Car) (l r f b bk : Bool)
    (dt : ℚ) :
    (c.apply_input o l r f b bk dt).boosting =
      (bk && decide (c.boost > 5) && f) := rfl

theorem apply_input_boost (o : MathOracle) (c : Car) (l r f b bk : Bool)
    (dt : ℚ) :
    (c.apply_input o l r f b bk dt).boost =
      if bk && decide (c.boost > 5) && f then c.boost - BOOST_COST * dt
      else min BOOST_MAX (c.boost + BOOST_RECHARGE * dt) := rfl

theorem padFold_boost_bounds (o : MathOracle) (x y : ℚ) :
    ∀ (pads : List BoostPad) (b : ℚ) (acc : List BoostPad),
    0 ≤ b → b ≤ BOOST_MAX →
    0 ≤ (pads.foldl (padPickup o x y) (b, acc)).1 ∧
    (pads.foldl (padPickup o x y) (b, acc)).1 ≤ BOOST_MAX := by
  intro pads
  induction pads with
  | nil => intro b acc h0 h1; exact ⟨h0, h1⟩
  | cons p ps ih =>
    intro b acc h0 h1
    simp only [List.foldl, padPickup]
    split_ifs with h2 h3
    · exact ih _ _ (le_min (by norm_num [BOOST_MAX]) (by linarith))
        (min_le_left _ _)
    · exact ih _ _ h0 h1
    · exact ih _ _ h0 h1

theorem padPickup_eq (o : MathOracle) (x y : ℚ) (st : ℚ × List BoostPad)
    (p : BoostPad) :
    padPickup o x y st p =
      ((if padInRange o x y p = true then min BOOST_MAX (st.1 + 45)
        else st.1),
       st.2 ++ [if padInRange o x y p = true
         then { p with active := false, cooldown := 5 } else p]) := by
  unfold padPickup padInRange
  by_cases h1 : p.active = true
  · by_cases h2 : o.sqrt ((x - p.x) ^ 2 + (y - p.y) ^ 2) < p.radius + 16
    · simp [h1, h2]
    · simp [h1, h2]
  · rw [Bool.not_eq_true] at h1
    simp [h1]

theorem padFold_snd (o : MathOracle) (x y : ℚ) :
    ∀ (pads : List BoostPad) (b : ℚ) (acc : List BoostPad),
    (pads.foldl (padPickup o x y) (b, acc)).2 =
      acc ++ pads.map (fun p => if padInRange o x y p = true
        then { p with active := false, cooldown := 5 } else p) := by
  intro pads
  induction pads with
  | nil => intro b acc; simp
  | cons p ps ih =>
    intro b acc
    simp only [List.foldl, padPickup_eq, List.map]
    rw [ih]
    simp

theorem padFold_fst (o : MathOracle) (x y : ℚ) :
    ∀ (pads : List BoostPad) (b : ℚ) (acc : List BoostPad),
    (pads.foldl (padPickup o x y) (b, acc)).1 =
      pads.foldl (fun b p => if padInRange o x y p = true
        then min BOOST_MAX (b + 45) else b) b := by
  intro pads
  induction pads with
  | nil => intro b acc; rfl
  | cons p ps ih =>
    intro b acc
    simp only [List.foldl, padPickup_eq]
    rw [ih]

theorem min_fold_absorb (M x k : ℚ) (hk : 0 ≤ k) :
    min M (min M x + k) = min M (x + k) := by
  rcases le_total x M with h | h
  · rw [min_eq_right h]
  · rw [min_eq_left h, min_eq_left (by linarith), min_eq_left (by linarith)]

theorem boostFold_count (o : MathOracle) (x y : ℚ) :
    ∀ (pads : List BoostPad) (b : ℚ),
    pads.foldl (fun b p => if padInRange o x y p = true
      then min BOOST_MAX (b + 45) else b) b =
      (if pads.countP (padInRange o x y) = 0 then b
       else min BOOST_MAX
         (b + 45 * (pads.countP (padInRange o x y) : ℚ))) := by
  intro pads
  induction pads with
  | nil => intro b; simp
  | cons p ps ih =>
    intro b
    simp only [List.foldl, List.countP_cons]
    by_cases h : padInRange o x y p = true
    · rw [if_pos h, ih]
      simp only [h, if_pos rfl]
      by_cases h0 : ps.countP (padInRange o x y) = 0
      · simp only [h0, if_pos rfl]
        norm_num
      · rw [if_neg h0, if_neg (by omega)]
        rw [min_fold_absorb _ _ _
          (by positivity : (0:ℚ) ≤ 45 * (ps.countP (padInRange o x y) : ℚ))]
        push_cast
        ring_nf
    · rw [if_neg h, ih]
      simp [h]

theorem carClampBounds_x_mem (c : Car) :
    30 ≤ (carClampBounds c).x ∧ (carClampBounds c).x ≤ SCREEN_W - 30 := by
  simp only [carClampBounds, SCREEN_W]
  split_ifs <;> simp_all <;> (try constructor) <;> linarith

theorem carClampBounds_y_mem (c : Car) :
    30 ≤ (carClampBounds c).y ∧ (carClampBounds c).y ≤ SCREEN_H - 30 := by
  simp only [carClampBounds, SCREEN_W, SCREEN_H]
  split_ifs <;> simp_all <;> (try constructor) <;> linarith

theorem carClampBounds_vx_left (c : Car) (h : c.x < 30) :
    (carClampBounds c).vx = |c.vx| * 0.6 := by
  simp only [carClampBounds, SCREEN_W, SCREEN_H]
  split_ifs <;> simp_all <;> linarith

theorem carClampBounds_vx_right (c : Car) (h : c.x > SCREEN_W - 30) :
    (carClampBounds c).vx = -|c.vx| * 0.6 := by
  simp only [carClampBounds, SCREEN_W, SCREEN_H] at h ⊢
  split_ifs <;> simp_all <;> linarith

theorem carClampBounds_vy_bottom (c : Car) (h : c.y < 30) :
    (carClampBounds c).vy = |c.vy| * 0.6 := by
  simp only [carClampBounds, SCREEN_W, SCREEN_H]
  split_ifs <;> simp_all <;> linarith

theorem carClampBounds_vy_top (c : Car) (h : c.y > SCREEN_H - 30) :
    (carClampBounds c).vy = -|c.vy| * 0.6 := by
  simp only [carClampBounds, SCREEN_W, SCREEN_H] at h ⊢
  split_ifs <;> simp_all <;> linarith

theorem ballClampBounds_x_mem (b : Ball) :
    BALL_RADIUS ≤ (ballClampBounds b).x ∧
    (ballClampBounds b).x ≤ SCREEN_W - BALL_RADIUS := by
  simp only [ballClampBounds, SCREEN_W, SCREEN_H, BALL_RADIUS]
  split_ifs <;> simp_all <;> (try constructor) <;> linarith

theorem ballClampBounds_y_mem (b : Ball) :
    BALL_RADIUS ≤ (ballClampBounds b).y ∧
    (ballClampBounds b).y ≤ SCREEN_H - BALL_RADIUS := by
  simp only [ballClampBounds, SCREEN_W, SCREEN_H, BALL_RADIUS]
  split_ifs <;> simp_all <;> (try constructor) <;> linarith

theorem ballClampBounds_vx_left (b : Ball) (h : b.x < BALL_RADIUS) :
    (ballClampBounds b).vx = |b.vx| * 0.9 := by
  simp only [ballClampBounds, SCREEN_W, SCREEN_H, BALL_RADIUS] at h ⊢
  split_ifs <;> simp_all <;> linarith

theorem ballClampBounds_vx_right (b : Ball) (h : b.x > SCREEN_W - BALL_RADIUS) :
    (ballClampBounds b).vx = -|b.vx| * 0.9 := by
  simp only [ballClampBounds, SCREEN_W, SCREEN_H, BALL_RADIUS] at h ⊢
  split_ifs <;> simp_all <;> linarith

theorem ballClampBounds_vy_bottom (b : Ball) (h : b.y < BALL_RADIUS) :
    (ballClampBounds b).vy = |b.vy| * 0.9 := by
  simp only [ballClampBounds, SCREEN_W, SCREEN_H, BALL_RADIUS] at h ⊢
  split_ifs <;> simp_all <;> linarith

theorem ballClampBounds_vy_top (b : Ball) (h : b.y > SCREEN_H - BALL_RADIUS) :
    (ballClampBounds b).vy = -|b.vy| * 0.9 := by
  simp only [ballClampBounds, SCREEN_W, SCREEN_H, BALL_RADIUS] at h ⊢
  split_ifs <;> simp_all <;> linarith

theorem anomalyAccel_sq_le (o : MathOracle) (ox oy mass dt : ℚ)
    (hdt0 : 0 ≤ dt) (hdt1 : dt ≤ 0.05) (v : ℚ × ℚ) (a : GravityAnomaly)
    (hna : a.kind ≠ "nebula" →
      ¬ (max 1 (o.sqrt ((a.x - ox) ^ 2 + (a.y - oy) ^ 2)) < a.radius * 3)) :
    (anomalyAccel o ox oy mass dt v a).1 ^ 2 +
      (anomalyAccel o ox oy mass dt v a).2 ^ 2 ≤ v.1 ^ 2 + v.2 ^ 2 := by
  unfold anomalyAccel
  by_cases hk : a.kind = "nebula"
  · rw [if_pos hk]
    split_ifs with hd
    · have hdt5 : (0.05 : ℚ) = 1/20 := by norm_num
      rw [hdt5] at hdt1
      have hc0 : 0 ≤ 1 - 0.35 * dt := by norm_num; linarith
      have hc1 : 1 - 0.35 * dt ≤ 1 := by norm_num; linarith
      have hsq : (1 - 0.35 * dt) ^ 2 ≤ 1 := by nlinarith
      have hS : 0 ≤ v.1 ^ 2 + v.2 ^ 2 :=
        add_nonneg (sq_nonneg v.1) (sq_nonneg v.2)
      have key : (v.1 * (1 - 0.35 * dt)) ^ 2 + (v.2 * (1 - 0.35 * dt)) ^ 2 =
          (1 - 0.35 * dt) ^ 2 * (v.1 ^ 2 + v.2 ^ 2) := by ring
      rw [key]
      nlinarith [mul_nonneg (by linarith : (0:ℚ) ≤ 1 - (1 - 0.35 * dt) ^ 2) hS]
    · exact le_refl _
  · rw [if_neg hk, if_neg (hna hk)]

theorem anomFold_sq_le (o : MathOracle) (ox oy mass dt : ℚ)
    (hdt0 : 0 ≤ dt) (hdt1 : dt ≤ 0.05) :
    ∀ (l : List GravityAnomaly) (v : ℚ × ℚ),
    (∀ a ∈ l, a.kind ≠ "nebula" →
      ¬ (max 1 (o.sqrt ((a.x - ox) ^ 2 + (a.y - oy) ^ 2)) < a.radius * 3)) →
    (l.foldl (anomalyAccel o ox oy mass dt) v).1 ^ 2 +
      (l.foldl (anomalyAccel o ox oy mass dt) v).2 ^ 2 ≤ v.1 ^ 2 + v.2 ^ 2 := by
  intro l
  induction l with
  | nil => intro v _; exact le_refl _
  | cons a as ih =>
    intro v hl
    simp only [List.foldl]
    have h1 := anomalyAccel_sq_le o ox oy mass dt hdt0 hdt1 v a
      (hl a (List.mem_cons_self a as))
    have h2 := ih (anomalyAccel o ox oy mass dt v a)
      (fun a' ha' => hl a' (List.mem_cons_of_mem a ha'))
    linarith

theorem corridorFold_id (o : MathOracle) (ox oy mass dt : ℚ) :
    ∀ (l : List GravityCorridor) (v : ℚ × ℚ),
    (∀ gc ∈ l, ¬ (|ox - gc.x| < gc.width / 2 ∧ |oy - gc.y| < gc.height / 2)) →
    l.foldl (corridorAccel o ox oy mass dt) v = v := by
  intro l
  induction l with
  | nil => intro v _; rfl
  | cons gc gcs ih =>
    intro v hl
    simp only [List.foldl]
    have h1 : corridorAccel o ox oy mass dt v gc = v := by
      unfold corridorAccel
      rw [if_neg (hl gc (List.mem_cons_self gc gcs))]
    rw [h1]
    exact ih v (fun gc' h => hl gc' (List.mem_cons_of_mem gc h))

theorem update_no_lightning (lm : LevelMap) (dt : ℚ) (s1 s2 : List ℚ)
    (h : lm.lightning = []) :
    (lm.update dt s1).1 = (lm.update dt s2).1 ∧
    (lm.update dt s1).1.lightning = [] := by
  unfold LevelMap.update
  rw [h]
  exact ⟨rfl, rfl⟩

theorem mapEvolve_no_lightning :
    ∀ (dts : List ℚ) (m : LevelMap), m.lightning = [] →
    ∀ s1 s2 : List ℚ, mapEvolve m dts s1 = mapEvolve m dts s2 := by
  intro dts
  induction dts with
  | nil => intro m _ s1 s2; rfl
  | cons dt dts ih =>
    intro m h s1 s2
    simp only [mapEvolve]
    have h1 := update_no_lightning m dt s1 s2 h
    have h2 := update_no_lightning m dt s2 s2 h
    rw [h1.1]
    exact ih _ h2.2 _ _

theorem init_lightning_empty (lid : Nat)
    (h : "lightning_nodes" ∉ (levelCfg lid).hazards) :
    (LevelMap.init lid).lightning = [] := by
  simp only [LevelMap.init]
  rw [if_neg h]

theorem goalCheckStep_combo_cases (g : MatchState) (bx bY : ℚ) :
    (goalCheckStep g bx bY).combo = 1 ∨
    (goalCheckStep g bx bY).combo = min (g.combo + 1) 8 ∨
    (goalCheckStep g bx bY).combo = g.combo := by
  unfold goalCheckStep
  split_ifs <;> simp

theorem matchFold_combo_bounds :
    ∀ (balls : List (ℚ × ℚ)) (g : MatchState), 1 ≤ g.combo → g.combo ≤ 8 →
    1 ≤ (balls.foldl (fun g p => goalCheckStep g p.1 p.2) g).combo ∧
    (balls.foldl (fun g p => goalCheckStep g p.1 p.2) g).combo ≤ 8 := by
  intro balls
  induction balls with
  | nil => intro g h1 h8; exact ⟨h1, h8⟩
  | cons p ps ih =>
    intro g h1 h8
    simp only [List.foldl]
    rcases goalCheckStep_combo_cases g p.1 p.2 with h | h | h <;>
      · apply ih
        · omega
        · omega

/-! ## C6: combo rules -/

/-- C6: in every state reachable from match start by goal-check ticks the
combo counter lies in `[1, 8]`; an AI goal (left zone) resets it to exactly
1, and a player goal (right zone, left zone not containing the ball)
increments it capped at 8, so it never exceeds 8 on any streak. -/
theorem C6_combo_rules (balls : List (ℚ × ℚ)) (g : MatchState) (bx bY : ℚ) :
    (1 ≤ (matchRun balls).combo ∧ (matchRun balls).combo ≤ 8) ∧
    (goal_l.check_goal bx bY = true → (goalCheckStep g bx bY).combo = 1) ∧
    (goal_l.check_goal bx bY = false → goal_r.check_goal bx bY = true →
      (goalCheckStep g bx bY).combo = min (g.combo + 1) 8) := by
  refine ⟨?_, fun hl => ?_, fun hl hr => ?_⟩
  · exact matchFold_combo_bounds balls {} (by norm_num) (by norm_num)
  · simp [goalCheckStep, hl]
  · simp [goalCheckStep, hl, hr]

/-- Witness for C6: a ball at `(10, 300)` is inside the left goal zone; one
goal-check tick from the initial state yields combo 1. -/
theorem C6_witness : (goalCheckStep {} 10 300).combo = 1 :=
  (C6_combo_rules [] {} 10 300).2.1 (by decide)

/-! ## C1: boost-pad pickup refills by +45 (capped), not to full -/

/-- C1 counterexample: a car with empty boost sitting exactly at the centre
of an active pad ends the update with boost 45, not 100; the pad is
deactivated with cooldown 5. -/
theorem C1_counterexample :
    (c1car.prePad oracle0 (1/20) c1map).x = 640 ∧
    (c1car.prePad oracle0 (1/20) c1map).y = 360 ∧
    c1car.boost = 0 ∧
    (c1car.update oracle0 (1/20) c1map).1.boost = 45 ∧
    (c1car.update oracle0 (1/20) c1map).1.boost ≠ 100 ∧
    (c1car.update oracle0 (1/20) c1map).2.boost_pads =
      [{ x := 640, y := 360, active := false, cooldown := 5 }] := by
  with_unfolding_all decide

/-- C1 amended: in any arena, during `Car.update` every boost pad that is
active and within `pad.radius + 16` of the car becomes inactive with
cooldown 5.0 while all other pads are unchanged, and the car's boost meter
becomes `min(100, previous + 45·n)` where `n ≥ 1` is the number of such
in-range active pads — not an unconditional refill to 100 (the boost is
unchanged when `n = 0`).  In particular, with exactly one in-range pad the
meter becomes `min(100, previous + 45)`, which reaches 100 only from a
meter of at least 55 and stays unchanged at the cap. -/
theorem C1_pad_pickup_adds_45 (o : MathOracle) (c : Car) (dt : ℚ)
    (lm : LevelMap) :
    (c.update o dt lm).2.boost_pads =
      lm.boost_pads.map (fun p =>
        if padInRange o (c.prePad o dt lm).x (c.prePad o dt lm).y p = true
        then { p with active := false, cooldown := 5 } else p) ∧
    (c.update o dt lm).1.boost =
      (if lm.boost_pads.countP
          (padInRange o (c.prePad o dt lm).x (c.prePad o dt lm).y) = 0
       then c.boost
       else min BOOST_MAX (c.boost + 45 * (lm.boost_pads.countP
         (padInRange o (c.prePad o dt lm).x (c.prePad o dt lm).y) : ℚ))) ∧
    (lm.boost_pads.countP
        (padInRange o (c.prePad o dt lm).x (c.prePad o dt lm).y) = 1 →
      (c.update o dt lm).1.boost = min BOOST_MAX (c.boost + 45)) := by
  refine ⟨?_, ?_, fun h1 => ?_⟩
  · simp only [Car.update]
    rw [padFold_snd]
    simp
  · simp only [Car.update]
    rw [padFold_fst, boostFold_count, Car.prePad_boost]
  · simp only [Car.update]
    rw [padFold_fst, boostFold_count, Car.prePad_boost, h1]
    norm_num

/-- Witness for C1's amended theorem at the concrete car/pad of the
counterexample: exactly one pad is in range, so `min(100, 0 + 45) = 45`. -/
theorem C1_witness :
    (c1car.update oracle0 (1/20) c1map).1.boost =
      min BOOST_MAX (c1car.boost + 45) :=
  (C1_pad_pickup_adds_45 oracle0 c1car (1/20) c1map).2.2
    (by with_unfolding_all decide)

/-! ## C3: boost meter invariant and drain condition -/

/-- C3: with per-tick `dt ∈ [0, 0.05]` (the clamp of `Game.run`) and a
boost meter in `[0, 100]`, both `apply_input` and `update` keep the meter in
`[0, 100]`; the boosting flag is set exactly when
`boost_key ∧ boost > 5 ∧ forward`; and the meter decreases only on ticks
where the boosting flag is set. -/
theorem C3_boost_invariant (o : MathOracle) (c : Car) (l r f b bk : Bool)
    (dt : ℚ) (lm : LevelMap) (hdt0 : 0 ≤ dt) (hdt1 : dt ≤ 0.05)
    (hb0 : 0 ≤ c.boost) (hb1 : c.boost ≤ BOOST_MAX) :
    (0 ≤ (c.apply_input o l r f b bk dt).boost ∧
      (c.apply_input o l r f b bk dt).boost ≤ BOOST_MAX) ∧
    ((c.apply_input o l r f b bk dt).boosting = true ↔
      bk = true ∧ c.boost > 5 ∧ f = true) ∧
    ((c.apply_input o l r f b bk dt).boost < c.boost →
      (c.apply_input o l r f b bk dt).boosting = true) ∧
    (0 ≤ (c.update o dt lm).1.boost ∧ (c.update o dt lm).1.boost ≤ BOOST_MAX) := by
  have hB := apply_input_boost o c l r f b bk dt
  have hBo := apply_input_boosting o c l r f b bk dt
  have hdt5 : (0.05 : ℚ) = 1/20 := by norm_num
  refine ⟨?_, ?_, ?_, ?_⟩
  · rw [hB]
    split_ifs with h
    · simp only [Bool.and_eq_true, decide_eq_true_eq] at h
      have h5 := h.1.2
      constructor
      · rw [show BOOST_COST = (30 : ℚ) from rfl]
        rw [hdt5] at hdt1
        linarith
      · rw [show BOOST_COST = (30 : ℚ) from rfl,
          show BOOST_MAX = (100 : ℚ) from rfl] at *
        nlinarith
    · exact ⟨le_min (by norm_num [BOOST_MAX])
        (by rw [show BOOST_RECHARGE = (8 : ℚ) from rfl]; nlinarith),
        min_le_left _ _⟩
  · rw [hBo]
    simp [Bool.and_eq_true, decide_eq_true_eq, and_assoc]
  · intro hlt
    rw [hB] at hlt
    rw [hBo]
    by_cases hbool : (bk && decide (c.boost > 5) && f) = true
    · exact hbool
    · rw [if_neg hbool] at hlt
      have hle : c.boost ≤ min BOOST_MAX (c.boost + BOOST_RECHARGE * dt) :=
        le_min hb1
          (by rw [show BOOST_RECHARGE = (8 : ℚ) from rfl]; nlinarith)
      linarith
  · have hp := Car.prePad_boost o c dt lm
    have hf := padFold_boost_bounds o (c.prePad o dt lm).x
      (c.prePad o dt lm).y lm.boost_pads (c.prePad o dt lm).boost []
      (by rw [hp]; exact hb0) (by rw [hp]; exact hb1)
    simpa only [Car.update] using hf

/-- Witness for C3 at a concrete boosting tick (`dt = 1/20`, full meter,
all inputs held). -/
theorem C3_witness :
    0 ≤ (Car.apply_input oracle0 { x := 0, y := 0 } true true true true true
      (1/20)).boost ∧
    (Car.apply_input oracle0 { x := 0, y := 0 } true true true true true
      (1/20)).boost ≤ BOOST_MAX :=
  (C3_boost_invariant oracle0 { x := 0, y := 0 } true true true true true
    (1/20) { level_id := 0 } (by norm_num) (by norm_num)
    (by with_unfolding_all decide) (by with_unfolding_all decide)).1

/-! ## C7: AIBrain.adapt moves the difficulty knobs exactly as specified -/

/-- C7: one call to `adapt()` applies the floored decreases exactly when
`goals_scored - goals_conceded < -2`, the capped increases exactly when the
differential is `> 2`, and changes nothing when it lies in `[-2, 2]`. -/
theorem C7_adapt_exact (b : AIBrain) :
    (b.goals_scored - b.goals_conceded < -2 →
      b.adapt = { b with aim_noise := max 1.0 (b.aim_noise - 3.0),
                         reaction_delay := max 0.0 (b.reaction_delay - 0.05) }) ∧
    (b.goals_scored - b.goals_conceded > 2 →
      b.adapt = { b with aim_noise := min 40.0 (b.aim_noise + 2.0),
                         reaction_delay := min 0.6 (b.reaction_delay + 0.03) }) ∧
    (-2 ≤ b.goals_scored - b.goals_conceded →
      b.goals_scored - b.goals_conceded ≤ 2 → b.adapt = b) := by
  refine ⟨fun h => ?_, fun h => ?_, fun h1 h2 => ?_⟩ <;>
    · simp only [AIBrain.adapt]
      split_ifs <;> first | rfl | omega

/-- Witness for C7 at a concrete brain with differential 0. -/
theorem C7_witness : AIBrain.adapt (AIBrain.init 1) = AIBrain.init 1 :=
  (C7_adapt_exact (AIBrain.init 1)).2.2 (by decide) (by decide)

/-! ## C9: check_hazard_hit is exactly the lightning/pulse-ring disjunction -/

/-- C9: `check_hazard_hit(position, radius)` returns true iff some active
lightning node is within `node.radius + radius` of the position, or the
distance to some pulse ring's centre is within `10 + radius` of the ring's
current band radius. -/
theorem C9_check_hazard_hit_iff (o : MathOracle) (lm : LevelMap)
    (ox oy radius : ℚ) :
    lm.check_hazard_hit o ox oy radius = true ↔
      (∃ ln ∈ lm.lightning, ln.active = true ∧
        o.sqrt ((ox - ln.x) ^ 2 + (oy - ln.y) ^ 2) < ln.radius + radius) ∨
      (∃ pr ∈ lm.pulse_rings,
        |o.sqrt ((ox - pr.cx) ^ 2 + (oy - pr.cy) ^ 2) - pr.radius| <
          10 + radius) := by
  simp [LevelMap.check_hazard_hit, List.any_eq_true, Bool.and_eq_true,
    decide_eq_true_eq]

/-! ## C10: car_hit fires exactly on 0.1 < d < 34 and is a no-op otherwise -/

/-- C10: `Ball.car_hit(car)` returns true iff the centre distance `d`
satisfies `0.1 < d < BALL_RADIUS + max(CAR_W, CAR_H) // 2 = 34`; whenever it
returns false the ball and the car are left completely unchanged. -/
theorem C10_car_hit_iff (o : MathOracle) (b : Ball) (c : Car) :
    ((b.car_hit o c).2.2 = true ↔
      0.1 < o.sqrt ((b.x - c.x) ^ 2 + (b.y - c.y) ^ 2) ∧
      o.sqrt ((b.x - c.x) ^ 2 + (b.y - c.y) ^ 2) < BALL_RADIUS + carHalfMax) ∧
    ((b.car_hit o c).2.2 = false →
      (b.car_hit o c).1 = b ∧ (b.car_hit o c).2.1 = c) := by
  simp only [Ball.car_hit]
  by_cases h : o.sqrt ((b.x - c.x) ^ 2 + (b.y - c.y) ^ 2) <
      BALL_RADIUS + carHalfMax ∧
      o.sqrt ((b.x - c.x) ^ 2 + (b.y - c.y) ^ 2) > 0.1
  · rw [if_pos h]
    refine ⟨⟨fun _ => ⟨h.2, h.1⟩, fun _ => rfl⟩, fun hf => absurd hf (by simp)⟩
  · rw [if_neg h]
    refine ⟨⟨fun ht => absurd ht (by simp),
      fun hc => absurd (And.intro hc.2 hc.1) h⟩, fun _ => ⟨rfl, rfl⟩⟩

/-- Witness for C10 at a concrete far-apart ball and car: no hit, and both
bodies are returned unchanged. -/
theorem C10_witness :
    (Ball.car_hit oracle0 { x := 0, y := 0, vx := 0, vy := 0 }
        { x := 1000, y := 0 }).1 = { x := 0, y := 0, vx := 0, vy := 0 } ∧
    (Ball.car_hit oracle0 { x := 0, y := 0, vx := 0, vy := 0 }
        { x := 1000, y := 0 }).2.1 = { x := 1000, y := 0 } :=
  (C10_car_hit_iff oracle0 { x := 0, y := 0, vx := 0, vy := 0 }
    { x := 1000, y := 0 }).2 (by with_unfolding_all decide)

/-! ## C8: goal containment is NOT inclusive on all boundary points -/

/-- C8 counterexample: the point `(22, 360)` lies exactly on the boundary of
the left goal's `GOAL_W x GOAL_H` rectangle (its right edge), yet a ball
there does not register as a goal. -/
theorem C8_counterexample :
    goal_l.x + GOAL_W = 22 ∧ goal_l.y ≤ 360 ∧ 360 ≤ goal_l.y + GOAL_H ∧
    goal_l.check_goal 22 360 = false := by decide

/-- C8 amended: the containment test truncates the ball's coordinates with
`int()` and is inclusive of the left and top edges of the goal rectangle but
exclusive of the right and bottom edges (pygame `Rect.collidepoint`
semantics). -/
theorem C8_check_goal_halfopen (bx bY : ℚ) :
    (goal_l.check_goal bx bY = true ↔
      0 ≤ pyInt bx ∧ pyInt bx < 22 ∧ 285 ≤ pyInt bY ∧ pyInt bY < 435) ∧
    (goal_r.check_goal bx bY = true ↔
      1258 ≤ pyInt bx ∧ pyInt bx < 1280 ∧ 285 ≤ pyInt bY ∧ pyInt bY < 435) := by
  constructor <;>
    simp [GoalZone.check_goal, collidepoint, goal_l, goal_r, GoalZone.init,
      GOAL_W, GOAL_H]

/-! ## C4: bounds clamping -/

/-- C4 counterexample: asteroids are NOT position-clamped.  `c4ast` sits at
`x = 1265` with `vx = 80`; one `LevelMap.update` tick at `dt = 1/20` moves
it to `x = 1269 > SCREEN_W - radius = 1266`, so after the bounds step of its
per-tick update the claimed `position ≤ screen_dimension - pad` fails (the
velocity is merely negated, with no clamp and no restitution scaling). -/
theorem C4_counterexample :
    c4astAfter.x = 1269 ∧ c4astAfter.radius = 14 ∧
    SCREEN_W - c4astAfter.radius < c4astAfter.x ∧ c4astAfter.vx = -80 := by
  with_unfolding_all decide

/-- C4 amended: after the bounds-clamping step, cars satisfy
`30 ≤ position ≤ dim - 30` and the ball `BALL_RADIUS ≤ position ≤
dim - BALL_RADIUS` on both axes, with an outward-pointing velocity
component replaced by `±|v| · restitution` (cars 0.6, ball 0.9); asteroids,
however, are only advected (`x += v·dt`, never clamped) and have the
corresponding velocity component negated, unscaled, exactly when the new
position lies beyond a wall. -/
theorem C4_bounds_clamping (c : Car) (b : Ball) (ast : MovingAsteroid)
    (dt : ℚ) :
    (30 ≤ (carClampBounds c).x ∧ (carClampBounds c).x ≤ SCREEN_W - 30 ∧
     30 ≤ (carClampBounds c).y ∧ (carClampBounds c).y ≤ SCREEN_H - 30) ∧
    ((c.x < 30 → (carClampBounds c).vx = |c.vx| * 0.6) ∧
     (c.x > SCREEN_W - 30 → (carClampBounds c).vx = -|c.vx| * 0.6) ∧
     (c.y < 30 → (carClampBounds c).vy = |c.vy| * 0.6) ∧
     (c.y > SCREEN_H - 30 → (carClampBounds c).vy = -|c.vy| * 0.6)) ∧
    (BALL_RADIUS ≤ (ballClampBounds b).x ∧
     (ballClampBounds b).x ≤ SCREEN_W - BALL_RADIUS ∧
     BALL_RADIUS ≤ (ballClampBounds b).y ∧
     (ballClampBounds b).y ≤ SCREEN_H - BALL_RADIUS) ∧
    ((b.x < BALL_RADIUS → (ballClampBounds b).vx = |b.vx| * 0.9) ∧
     (b.x > SCREEN_W - BALL_RADIUS → (ballClampBounds b).vx = -|b.vx| * 0.9) ∧
     (b.y < BALL_RADIUS → (ballClampBounds b).vy = |b.vy| * 0.9) ∧
     (b.y > SCREEN_H - BALL_RADIUS →
       (ballClampBounds b).vy = -|b.vy| * 0.9)) ∧
    ((asteroidStep dt ast).x = ast.x + ast.vx * dt ∧
     (asteroidStep dt ast).y = ast.y + ast.vy * dt ∧
     (asteroidStep dt ast).vx =
       (if ast.x + ast.vx * dt < ast.radius ∨
           ast.x + ast.vx * dt > SCREEN_W - ast.radius
        then -ast.vx else ast.vx) ∧
     (asteroidStep dt ast).vy =
       (if ast.y + ast.vy * dt < ast.radius ∨
           ast.y + ast.vy * dt > SCREEN_H - ast.radius
        then -ast.vy else ast.vy)) := by
  refine ⟨⟨(carClampBounds_x_mem c).1, (carClampBounds_x_mem c).2,
      (carClampBounds_y_mem c).1, (carClampBounds_y_mem c).2⟩,
    ⟨carClampBounds_vx_left c, carClampBounds_vx_right c,
      carClampBounds_vy_bottom c, carClampBounds_vy_top c⟩,
    ⟨(ballClampBounds_x_mem b).1, (ballClampBounds_x_mem b).2,
      (ballClampBounds_y_mem b).1, (ballClampBounds_y_mem b).2⟩,
    ⟨ballClampBounds_vx_left b, ballClampBounds_vx_right b,
      ballClampBounds_vy_bottom b, ballClampBounds_vy_top b⟩,
    rfl, rfl, rfl, rfl⟩

/-- Witness for C4's amended theorem: a car beyond the left wall is clamped
to `x = 30` with its outward velocity negated and scaled by 0.6. -/
theorem C4_witness :
    (carClampBounds { x := -5, y := 360, vx := -10 }).vx = |(-10 : ℚ)| * 0.6 :=
  (C4_bounds_clamping { x := -5, y := 360, vx := -10 }
    { x := 0, y := 0, vx := 0, vy := 0 } c4ast (1/20)).2.1.1
    (by with_unfolding_all decide)

/-! ## C5: nebula anomalies only damp -/

/-- C5: for `dt ∈ [0, 0.05]`, if every non-nebula anomaly's influence
region (`3·radius`, with the floored distance) does not contain the body's
position and the body lies inside no gravity corridor, then one
`apply_gravity` call does not increase the squared velocity magnitude
(hence not the magnitude): nebula zones only damp, never accelerate. -/
theorem C5_nebula_only_damps (o : MathOracle) (lm : LevelMap)
    (ox oy vx vy mass dt : ℚ) (hdt0 : 0 ≤ dt) (hdt1 : dt ≤ 0.05)
    (hanom : ∀ a ∈ lm.anomalies, a.kind ≠ "nebula" →
      ¬ (max 1 (o.sqrt ((a.x - ox) ^ 2 + (a.y - oy) ^ 2)) < a.radius * 3))
    (hcor : ∀ gc ∈ lm.gravity_corridors,
      ¬ (|ox - gc.x| < gc.width / 2 ∧ |oy - gc.y| < gc.height / 2)) :
    (lm.apply_gravity o ox oy vx vy mass dt).1 ^ 2 +
      (lm.apply_gravity o ox oy vx vy mass dt).2 ^ 2 ≤ vx ^ 2 + vy ^ 2 := by
  unfold LevelMap.apply_gravity
  rw [corridorFold_id o ox oy mass dt lm.gravity_corridors _ hcor]
  exact anomFold_sq_le o ox oy mass dt hdt0 hdt1 lm.anomalies (vx, vy) hanom

/-- Witness for C5: a body at the centre of the nebula of `c5map` (inside
`radius`, hence actually damped) does not gain speed. -/
theorem C5_witness :
    (c5map.apply_gravity oracle0 0 0 100 0 1 (1/20)).1 ^ 2 +
      (c5map.apply_gravity oracle0 0 0 100 0 1 (1/20)).2 ^ 2 ≤
      (100 : ℚ) ^ 2 + 0 ^ 2 :=
  C5_nebula_only_damps oracle0 c5map 0 0 100 0 1 (1/20) (by norm_num)
    (by norm_num) (by with_unfolding_all decide) (by with_unfolding_all decide)

/-! ## C2: seeded determinism of the arena layout -/

/-- C2 counterexample: two `LevelMap` instances for `level_id = 4`,
necessarily identical at construction, driven through the SAME `dt`
sequence, end in different states when the process-global random draws they
observe differ (all-zero unit draws vs all-`1/2` unit draws):
`LevelMap.update` feeds the lightning-node toggle timers from the unseeded
global `random` module, not from the arena's seed. -/
theorem C2_counterexample :
    mapEvolve (LevelMap.init 4) c2dts (List.replicate 5 0) ≠
      mapEvolve (LevelMap.init 4) c2dts (List.replicate 5 (1/2)) := by
  intro h
  have h2 := congrArg (fun m => m.lightning.map (fun l => l.timer)) h
  revert h2
  with_unfolding_all decide

/-- C2 amended: generation draws only from the rng seeded with
`level_id * 137 + 42`, so two independently constructed layouts for the
same `level_id` are identical (in this embedding `LevelMap.init` is a
function of `level_id` alone); and for every arena without lightning nodes
(levels 0-3) the tick-by-tick evolution under the same `dt` sequence is
also identical regardless of the ambient global random draws.  (For level 4
the lightning toggles consume ambient draws, so evolution additionally
requires the same ambient draw sequence.) -/
theorem C2_layout_determinism (lid : Nat) (dts : List ℚ) (s1 s2 : List ℚ)
    (h : lid < 4) :
    mapEvolve (LevelMap.init lid) dts s1 = mapEvolve (LevelMap.init lid) dts s2 := by
  apply mapEvolve_no_lightning
  apply init_lightning_empty
  interval_cases lid <;> decide

/-- Witness for C2's amended theorem on level 0 with two different ambient
streams. -/
theorem C2_witness :
    mapEvolve (LevelMap.init 0) [1/20] [0] = mapEvolve (LevelMap.init 0) [1/20] [1/2] :=
  C2_layout_determinism 0 [1/20] [0] [1/2] (by norm_num)

end RocketLeague
